import Mathlib

/-!
Verification of the Titan judge verification tool
(packages/shared/scripts/judge_verification.py) against its specification.

The script is embedded shallowly. External effects are modelled by an
environment record: an oracle mapping each (command, working directory)
pair to the outcome subprocess.run observed for it, the os.path.exists
predicate, and the outcome of reading a JSON manifest at a path. The
analyzer and main procedures are translated line by line from the source;
each analyzer additionally returns the list of commands it passed to the
step runner, in order, instrumenting the run_command call sites so that
claims about which external commands are invoked can be stated.
-/

/-- Outcome of one external command as observed by subprocess.run with
shell=True: the exit status reported by the shell, the captured stdout/stderr streams,
and the wall-clock duration in whole milliseconds measured around the
call. With shell=True an unstartable command (missing executable,
permission denied) does not raise an exception in the orchestrator: the
shell itself reports it through a non-zero exit status (conventionally
126/127) and a diagnostic on stderr, so every call yields a value of this
type. -/
structure CmdResult where
  returncode : Int
  stdout : String
  stderr : String
  duration_ms : Nat
deriving DecidableEq

/-- Outcome of the capability-probe body in the deep branch of
analyze_node_project (open, json.load, scripts lookup): either one of the exception
cases (file absent, file unreadable, malformed JSON), all of which are
swallowed by the bare except clause, or a successful parse carrying the
key set of the scripts table in the manifest (none when the parsed manifest
has no scripts table, matching pkg_data.get returning the empty dict). -/
inductive ManifestRead where
  | absent
  | unreadable
  | malformed
  | parsed (scripts : Option (List String))
deriving DecidableEq

/-- The external world for one run: the subprocess oracle, the
os.path.exists predicate, and the result of reading a JSON manifest. -/
structure Env where
  run : String → String → CmdResult
  pathExists : String → Bool
  readJson : String → ManifestRead

/-- run_command(command, cwd): subprocess.run(command, shell=True,
cwd=cwd, capture_output=True, text=True). In the embedding the
environment oracle supplies the completed process. -/
def run_command (env : Env) (command : String) (cwd : String) : CmdResult :=
  env.run command cwd

/-- os.path.join for the relative path components used in the script. -/
def joinPath (a b : String) : String := a ++ "/" ++ b

/-- One entry of report["steps"]: name, duration_ms, exit_code, and the
stdout[:500] / stderr[:500] excerpts. -/
structure StepResult where
  name : String
  duration_ms : Nat
  exit_code : Int
  stdout : String
  stderr : String
deriving DecidableEq

/-- The report dict built by either analyzer: type, steps, failures,
status. -/
structure Report where
  type : String
  steps : List StepResult
  failures : List String
  status : String
deriving DecidableEq

/-- The step dict appended to report["steps"] at every step site of both
analyzers: the step name, the measured duration, the exit code, and the
output streams truncated by Python slicing to their first 500
characters. -/
def mkStep (name : String) (res : CmdResult) : StepResult :=
  { name := name
    duration_ms := res.duration_ms
    exit_code := res.returncode
    stdout := res.stdout.take 500
    stderr := res.stderr.take 500 }

/-- The fresh report dict each analyzer starts from: empty steps, empty
failures, status PASS. -/
def initial_report (type : String) : Report :=
  { type := type, steps := [], failures := [], status := "PASS" }

/-- Capability probe from the deep branch of analyze_node_project: the value
of the membership test on pkg_data.get("scripts", empty-dict) when the read
succeeds, and False whenever the try block raised (absent, unreadable or
malformed manifest), since has_prop_test keeps its initial value False in
that case. Fails closed: a total function that never raises. -/
def hasPropTest : ManifestRead → Bool
  | .parsed (some scripts) => scripts.contains "test:property"
  | _ => false

/-- analyze_node_project(service_path, deep_mode): lint, then unit tests
(always both, no early abort), then in deep mode the capability-gated
property-test step. The second component lists the commands passed to
run_command, in order. -/
def analyze_node_project (env : Env) (service_path : String) (deep_mode : Bool) :
    Report × List String :=
  let report := initial_report "node"
  let lint_res := run_command env "npm run lint" service_path
  let report := { report with steps := report.steps ++ [mkStep "lint" lint_res] }
  let report :=
    if lint_res.returncode ≠ 0 then
      { report with status := "FAIL", failures := report.failures ++ ["Lint check failed"] }
    else report
  let test_res := run_command env "npm run test:unit" service_path
  let report := { report with steps := report.steps ++ [mkStep "test:unit" test_res] }
  let report :=
    if test_res.returncode ≠ 0 then
      { report with status := "FAIL", failures := report.failures ++ ["Unit tests failed"] }
    else report
  if deep_mode then
    let has_prop_test := hasPropTest (env.readJson (joinPath service_path "package.json"))
    if has_prop_test then
      let prop_res := run_command env "npm run test:property" service_path
      let report := { report with steps := report.steps ++ [mkStep "test:property" prop_res] }
      let report :=
        if prop_res.returncode ≠ 0 then
          { report with status := "FAIL",
                        failures := report.failures ++ ["Property tests failed"] }
        else report
      (report, ["npm run lint", "npm run test:unit", "npm run test:property"])
    else
      (report, ["npm run lint", "npm run test:unit"])
  else
    (report, ["npm run lint", "npm run test:unit"])

/-- analyze_rust_project(service_path, deep_mode): cargo check with early
abort on failure, then cargo test, then in deep mode cargo bench and the
conditional regression_suite.sh step (guarded by os.path.exists only).
The second component lists the commands passed to run_command, in
order. -/
def analyze_rust_project (env : Env) (service_path : String) (deep_mode : Bool) :
    Report × List String :=
  let report := initial_report "rust"
  let check_res := run_command env "cargo check" service_path
  let report := { report with steps := report.steps ++ [mkStep "cargo check" check_res] }
  if check_res.returncode ≠ 0 then
    ({ report with status := "FAIL", failures := report.failures ++ ["Compilation failed"] },
      ["cargo check"])
  else
    let test_res := run_command env "cargo test" service_path
    let report := { report with steps := report.steps ++ [mkStep "cargo test" test_res] }
    let report :=
      if test_res.returncode ≠ 0 then
        { report with status := "FAIL", failures := report.failures ++ ["Tests failed"] }
      else report
    if deep_mode then
      let bench_res := run_command env "cargo bench" service_path
      let report := { report with steps := report.steps ++ [mkStep "cargo bench" bench_res] }
      let report :=
        if bench_res.returncode ≠ 0 then
          { report with status := "FAIL", failures := report.failures ++ ["Benchmarks failed"] }
        else report
      if env.pathExists (joinPath service_path "regression_suite.sh") then
        let reg_res := run_command env "./regression_suite.sh" service_path
        let report := { report with steps := report.steps ++ [mkStep "regression_suite" reg_res] }
        let report :=
          if reg_res.returncode ≠ 0 then
            { report with status := "FAIL",
                          failures := report.failures ++ ["Regression suite failed"] }
          else report
        (report, ["cargo check", "cargo test", "cargo bench", "./regression_suite.sh"])
      else
        (report, ["cargo check", "cargo test", "cargo bench"])
    else
      (report, ["cargo check", "cargo test"])

/-- Shape of the JSON object printed by main: either one of the two
error-only dicts (path not found, unknown project type), which carry only
an error message and a status, or a full analyzer report. -/
inductive MainOut where
  | errorOnly (error : String) (status : String)
  | analyzed (report : Report)
deriving DecidableEq

/-- The "status" entry of the printed object. -/
def MainOut.statusOf : MainOut → String
  | .errorOnly _ s => s
  | .analyzed r => r.status

/-- The keys of the printed JSON object, read off the dict literals in
the source: the error dicts carry exactly an error and a status key; an
analyzer report carries type, steps, failures and status. -/
def outputKeys : MainOut → List String
  | .errorOnly _ _ => ["error", "status"]
  | .analyzed _ => ["type", "steps", "failures", "status"]

/-- Observable outcome of one invocation of main: the printed object, the
process exit status, and the commands passed to the step runner. -/
structure MainResult where
  output : MainOut
  exit_code : Nat
  invoked : List String
deriving DecidableEq

/-- main(): abort with an error-only report and exit 1 when the service
path does not exist; otherwise detect the toolchain (Cargo.toml first,
then package.json, else an unknown-type error report) and run the
selected analyzer; exit 1 exactly when the final status is FAIL, else
exit 0. -/
def main_run (env : Env) (service_path : String) (deep : Bool) : MainResult :=
  if env.pathExists service_path = false then
    { output := .errorOnly ("Path not found: " ++ service_path) "FAIL"
      exit_code := 1
      invoked := [] }
  else if env.pathExists (joinPath service_path "Cargo.toml") then
    let res := analyze_rust_project env service_path deep
    { output := .analyzed res.1
      exit_code := if res.1.status = "FAIL" then 1 else 0
      invoked := res.2 }
  else if env.pathExists (joinPath service_path "package.json") then
    let res := analyze_node_project env service_path deep
    { output := .analyzed res.1
      exit_code := if res.1.status = "FAIL" then 1 else 0
      invoked := res.2 }
  else
    { output := .errorOnly "Unknown project type (no package.json or Cargo.toml)" "FAIL"
      exit_code := 1
      invoked := [] }

/-- An environment where every command exits with the given code, every
path exists, and the manifest is absent. -/
def constEnv (code : Int) : Env where
  run := fun _ _ => { returncode := code, stdout := "", stderr := "", duration_ms := 0 }
  pathExists := fun _ => true
  readJson := fun _ => .absent

/-- A project directory containing package.json but no Cargo.toml, whose
commands all fail with exit 1. -/
def env_node_only : Env where
  run := fun _ _ => { returncode := 1, stdout := "", stderr := "", duration_ms := 0 }
  pathExists := fun p => !(p == joinPath "node-svc" "Cargo.toml")
  readJson := fun _ => .absent

/-- An environment in which no path exists at all. -/
def env_nopath : Env where
  run := fun _ _ => { returncode := 0, stdout := "", stderr := "", duration_ms := 0 }
  pathExists := fun _ => false
  readJson := fun _ => .absent

/-- A node run in which the lint executable cannot be started: because
run_command uses shell=True, subprocess.run raises nothing and the shell
reports the startup problem as exit status 127 with its diagnostic on
stderr. Every other command succeeds. -/
def env_unstartable : Env where
  run := fun c _ =>
    if c = "npm run lint" then
      { returncode := 127, stdout := "", stderr := "/bin/sh: 1: npm: not found", duration_ms := 3 }
    else { returncode := 0, stdout := "ok", stderr := "", duration_ms := 4 }
  pathExists := fun p => !(p == joinPath "svc" "Cargo.toml")
  readJson := fun _ => .absent

/-- A node run in which the lint tool starts fine and cleanly exits with
the same non-zero status 127, reporting ordinary lint findings. -/
def env_cleanfail : Env where
  run := fun c _ =>
    if c = "npm run lint" then
      { returncode := 127, stdout := "", stderr := "3 problems (3 errors, 0 warnings)",
        duration_ms := 3 }
    else { returncode := 0, stdout := "ok", stderr := "", duration_ms := 4 }
  pathExists := fun p => !(p == joinPath "svc" "Cargo.toml")
  readJson := fun _ => .absent

/-- A rust project whose regression_suite.sh exists and whose compile
check fails while every other command would succeed. -/
def env_regrAbort : Env where
  run := fun c _ =>
    if c = "cargo check" then
      { returncode := 101, stdout := "", stderr := "error: expected expression", duration_ms := 9 }
    else { returncode := 0, stdout := "", stderr := "", duration_ms := 1 }
  pathExists := fun _ => true
  readJson := fun _ => .absent

/-- A rust project whose regression_suite.sh exists and fails while every
other command succeeds. -/
def env_regrFail : Env where
  run := fun c _ =>
    if c = "./regression_suite.sh" then
      { returncode := 1, stdout := "", stderr := "regression drift detected", duration_ms := 7 }
    else { returncode := 0, stdout := "", stderr := "", duration_ms := 2 }
  pathExists := fun _ => true
  readJson := fun _ => .absent

/-- A command outcome with short output streams. -/
def res_ab : CmdResult :=
  { returncode := 0, stdout := "ab", stderr := "xy", duration_ms := 5 }

/-- C1: for every run in which the toolchain detector selects the
compiled ecosystem (Cargo.toml present at the project root) and the
cargo-check step exits non-zero, the run aborts immediately: the printed
report is exactly the one-StepResult rust report whose only failure
reason is "Compilation failed" with overall status FAIL, and the step
runner is invoked exactly once — no test, bench or regression command is
ever invoked. -/
theorem C1_compiled_abort (env : Env) (sp : String) (deep : Bool)
    (h1 : env.pathExists sp = true)
    (h2 : env.pathExists (joinPath sp "Cargo.toml") = true)
    (h3 : (run_command env "cargo check" sp).returncode ≠ 0) :
    (main_run env sp deep).output =
      .analyzed { type := "rust"
                  steps := [mkStep "cargo check" (run_command env "cargo check" sp)]
                  failures := ["Compilation failed"]
                  status := "FAIL" }
    ∧ (main_run env sp deep).invoked = ["cargo check"]
    ∧ (main_run env sp deep).invoked.length = 1 := by
  simp [main_run, analyze_rust_project, initial_report, h1, h2, h3]

theorem C1_compiled_abort_witness :
    (constEnv 1).pathExists "svc" = true
    ∧ (constEnv 1).pathExists (joinPath "svc" "Cargo.toml") = true
    ∧ (run_command (constEnv 1) "cargo check" "svc").returncode ≠ 0
    ∧ (main_run (constEnv 1) "svc" true).invoked = ["cargo check"] :=
  ⟨by decide, by decide, by decide,
    (C1_compiled_abort (constEnv 1) "svc" true (by decide) (by decide) (by decide)).2.1⟩

/-- C2: for every report produced by either analyzer variant, at any step
outcomes and with deep mode on or off, overall status is FAIL exactly
when the failure-reason list is non-empty; and the report each analyzer
creates at the start of a run has status PASS and empty step and failure
collections. -/
theorem C2_status_iff_failures (env : Env) (sp : String) (deep : Bool) :
    ((initial_report "node").status = "PASS" ∧ (initial_report "node").steps = []
      ∧ (initial_report "node").failures = [])
    ∧ ((initial_report "rust").status = "PASS" ∧ (initial_report "rust").steps = []
      ∧ (initial_report "rust").failures = [])
    ∧ ((analyze_node_project env sp deep).1.status = "FAIL"
        ↔ (analyze_node_project env sp deep).1.failures ≠ [])
    ∧ ((analyze_rust_project env sp deep).1.status = "FAIL"
        ↔ (analyze_rust_project env sp deep).1.failures ≠ []) := by
  refine ⟨⟨rfl, rfl, rfl⟩, ⟨rfl, rfl, rfl⟩, ?_, ?_⟩
  · simp only [analyze_node_project, initial_report]
    split_ifs <;> simp
  · simp only [analyze_rust_project, initial_report]
    split_ifs <;> simp

theorem C2_status_iff_failures_witness :
    (analyze_node_project (constEnv 1) "svc" false).1.status = "FAIL" :=
  (C2_status_iff_failures (constEnv 1) "svc" false).2.2.1.mpr (by decide)

/-- C3: for every run in which the toolchain detector selects the
scripted ecosystem (no Cargo.toml, package.json present), there is no
early abort: the report contains exactly 2 StepResults in non-deep mode
and, in deep mode, 3 exactly when the test:property capability is
present and 2 otherwise; and the unit-test step is both invoked and
recorded even when the lint step exited non-zero. -/
theorem C3_scripted_no_abort (env : Env) (sp : String)
    (h1 : env.pathExists sp = true)
    (h2 : env.pathExists (joinPath sp "Cargo.toml") = false)
    (h3 : env.pathExists (joinPath sp "package.json") = true) :
    ((main_run env sp false).output = .analyzed (analyze_node_project env sp false).1)
    ∧ ((main_run env sp true).output = .analyzed (analyze_node_project env sp true).1)
    ∧ (analyze_node_project env sp false).1.steps.length = 2
    ∧ ((analyze_node_project env sp true).1.steps.length =
        if hasPropTest (env.readJson (joinPath sp "package.json")) then 3 else 2)
    ∧ ((run_command env "npm run lint" sp).returncode ≠ 0 →
        "npm run test:unit" ∈ (analyze_node_project env sp false).2
        ∧ mkStep "test:unit" (run_command env "npm run test:unit" sp)
            ∈ (analyze_node_project env sp false).1.steps)
    ∧ "npm run test:unit" ∈ (analyze_node_project env sp true).2 := by
  refine ⟨by simp [main_run, h1, h2, h3], by simp [main_run, h1, h2, h3], ?_, ?_, ?_, ?_⟩
  · simp only [analyze_node_project, initial_report]
    split_ifs <;> simp_all
  · simp only [analyze_node_project, initial_report]
    split_ifs <;> simp_all
  · intro hlint
    constructor
    · simp only [analyze_node_project]
      split_ifs <;> simp
    · simp only [analyze_node_project, initial_report]
      split_ifs <;> simp
  · simp only [analyze_node_project]
    split_ifs <;> simp

theorem C3_scripted_no_abort_witness :
    env_node_only.pathExists "node-svc" = true
    ∧ (run_command env_node_only "npm run lint" "node-svc").returncode ≠ 0
    ∧ (analyze_node_project env_node_only "node-svc" false).1.steps.length = 2
    ∧ "npm run test:unit" ∈ (analyze_node_project env_node_only "node-svc" false).2 :=
  ⟨by decide, by decide,
    (C3_scripted_no_abort env_node_only "node-svc" (by decide) (by decide) (by decide)).2.2.1,
    ((C3_scripted_no_abort env_node_only "node-svc" (by decide) (by decide)
        (by decide)).2.2.2.2.1 (by decide)).1⟩

/-- C4: toolchain detection follows the fixed precedence: Cargo.toml at
the project root selects the compiled variant regardless of whether
package.json also exists; otherwise package.json selects the scripted
variant; otherwise the run produces the unknown-project-type error
report. -/
theorem C4_detector_precedence (env : Env) (sp : String) (deep : Bool)
    (h : env.pathExists sp = true) :
    (env.pathExists (joinPath sp "Cargo.toml") = true →
      (main_run env sp deep).output = .analyzed (analyze_rust_project env sp deep).1)
    ∧ (env.pathExists (joinPath sp "Cargo.toml") = false →
       env.pathExists (joinPath sp "package.json") = true →
      (main_run env sp deep).output = .analyzed (analyze_node_project env sp deep).1)
    ∧ (env.pathExists (joinPath sp "Cargo.toml") = false →
       env.pathExists (joinPath sp "package.json") = false →
      (main_run env sp deep).output =
        .errorOnly "Unknown project type (no package.json or Cargo.toml)" "FAIL") := by
  refine ⟨fun hc => ?_, fun hc hp => ?_, fun hc hp => ?_⟩
  · simp [main_run, h, hc]
  · simp [main_run, h, hc, hp]
  · simp [main_run, h, hc, hp]

theorem C4_detector_precedence_witness :
    (main_run (constEnv 0) "svc" false).output =
      .analyzed (analyze_rust_project (constEnv 0) "svc" false).1 :=
  (C4_detector_precedence (constEnv 0) "svc" false (by decide)).1 (by decide)

/-- C5: the process exit status is 0 when the status of the finalized report
is PASS and 1 whenever it is FAIL, including the precondition cases: a
missing target path yields the path-not-found error report with exit 1
and no step invoked, and an unrecognized toolchain yields the
unknown-project-type error report with exit 1 and no analyzer (hence no
command) invoked. -/
theorem C5_exit_status (env : Env) (sp : String) (deep : Bool) :
    ((main_run env sp deep).exit_code =
      if (main_run env sp deep).output.statusOf = "FAIL" then 1 else 0)
    ∧ ((main_run env sp deep).output.statusOf = "PASS" → (main_run env sp deep).exit_code = 0)
    ∧ (env.pathExists sp = false →
        (main_run env sp deep).output = .errorOnly ("Path not found: " ++ sp) "FAIL"
        ∧ (main_run env sp deep).exit_code = 1
        ∧ (main_run env sp deep).invoked = [])
    ∧ (env.pathExists sp = true →
       env.pathExists (joinPath sp "Cargo.toml") = false →
       env.pathExists (joinPath sp "package.json") = false →
        (main_run env sp deep).output =
          .errorOnly "Unknown project type (no package.json or Cargo.toml)" "FAIL"
        ∧ (main_run env sp deep).exit_code = 1
        ∧ (main_run env sp deep).invoked = []) := by
  refine ⟨?_, ?_, fun h => ?_, fun h1 h2 h3 => ?_⟩
  · simp only [main_run]
    split_ifs <;> simp_all [MainOut.statusOf]
  · intro hp
    simp only [main_run] at hp ⊢
    split_ifs at hp ⊢ <;> simp_all [MainOut.statusOf]
  · simp [main_run, h]
  · simp [main_run, h1, h2, h3]

theorem C5_exit_status_witness :
    (main_run (constEnv 0) "svc" false).output.statusOf = "PASS"
    ∧ (main_run (constEnv 0) "svc" false).exit_code = 0 :=
  ⟨by decide, (C5_exit_status (constEnv 0) "svc" false).2.1 (by decide)⟩

/-- C7: the capability probe fails closed — an absent, unreadable or
malformed manifest (and a manifest without a scripts table) yields false
— and an absent capability makes deep mode behave exactly like non-deep
mode: the property-test step is omitted entirely (2 steps, none named
test:property, the property command never invoked) and the failure list
is unchanged, so the absent capability is never itself a verification
failure. -/
theorem C7_capability_fails_closed (env : Env) (sp : String)
    (h : hasPropTest (env.readJson (joinPath sp "package.json")) = false) :
    hasPropTest ManifestRead.absent = false
    ∧ hasPropTest ManifestRead.unreadable = false
    ∧ hasPropTest ManifestRead.malformed = false
    ∧ hasPropTest (ManifestRead.parsed none) = false
    ∧ analyze_node_project env sp true = analyze_node_project env sp false
    ∧ (analyze_node_project env sp true).1.steps.length = 2
    ∧ (∀ s ∈ (analyze_node_project env sp true).1.steps, s.name ≠ "test:property")
    ∧ "npm run test:property" ∉ (analyze_node_project env sp true).2
    ∧ (analyze_node_project env sp true).1.failures
        = (analyze_node_project env sp false).1.failures := by
  have h5 : analyze_node_project env sp true = analyze_node_project env sp false := by
    simp [analyze_node_project, h]
  refine ⟨rfl, rfl, rfl, rfl, h5, ?_, ?_, ?_, by rw [h5]⟩
  · rw [h5]
    simp only [analyze_node_project, initial_report]
    split_ifs <;> simp_all
  · rw [h5]
    intro s hs
    simp only [analyze_node_project, initial_report] at hs
    split_ifs at hs <;>
      simp only [List.nil_append, List.cons_append, List.mem_cons,
        List.not_mem_nil, or_false] at hs <;>
      first
        | exact (by assumption : False).elim
        | (rcases hs with rfl | rfl | rfl <;> simp [mkStep])
  · rw [h5]
    simp [analyze_node_project]

theorem C7_capability_fails_closed_witness :
    hasPropTest ((constEnv 0).readJson (joinPath "svc" "package.json")) = false
    ∧ analyze_node_project (constEnv 0) "svc" true
        = analyze_node_project (constEnv 0) "svc" false :=
  ⟨by decide, (C7_capability_fails_closed (constEnv 0) "svc" (by decide)).2.2.2.2.1⟩

theorem string_length_take (s : String) (n : Nat) : (s.take n).length = min n s.length := by
  have h1 : (s.take n).length = (s.take n).1.length := rfl
  have h2 : s.length = s.1.length := rfl
  rw [h1, h2, String.data_take, List.length_take]

theorem string_take_of_le (s : String) (n : Nat) (h : s.length ≤ n) : s.take n = s := by
  cases s with
  | mk data =>
    rw [String.take_eq]
    congr 1
    exact List.take_of_length_le h

theorem mkStep_bound (n : String) (r : CmdResult) :
    (mkStep n r).stdout.length ≤ 500 ∧ (mkStep n r).stderr.length ≤ 500 := by
  constructor <;> simp [mkStep, string_length_take]

theorem node_steps_bound (env : Env) (sp : String) (deep : Bool) :
    ∀ s ∈ (analyze_node_project env sp deep).1.steps,
      s.stdout.length ≤ 500 ∧ s.stderr.length ≤ 500 := by
  intro s hs
  simp only [analyze_node_project, initial_report] at hs
  split_ifs at hs <;>
    simp only [List.nil_append, List.cons_append, List.mem_cons,
      List.not_mem_nil, or_false] at hs <;>
    (rcases hs with rfl | rfl | rfl <;> exact mkStep_bound _ _)

theorem rust_steps_bound (env : Env) (sp : String) (deep : Bool) :
    ∀ s ∈ (analyze_rust_project env sp deep).1.steps,
      s.stdout.length ≤ 500 ∧ s.stderr.length ≤ 500 := by
  intro s hs
  simp only [analyze_rust_project, initial_report] at hs
  split_ifs at hs <;>
    simp only [List.nil_append, List.cons_append, List.mem_cons,
      List.not_mem_nil, or_false] at hs <;>
    (rcases hs with rfl | rfl | rfl | rfl <;> exact mkStep_bound _ _)

set_option maxRecDepth 4000 in
/-- C8: every stored step excerpt is the captured stream truncated to at
most 500 characters: the stored text is exactly the first 500 characters
(length min 500 with the capture, 500 exactly when the capture is at
least that long), captures of at most 500 characters are stored
unmodified, and every step recorded by either analyzer obeys the
bound. -/
theorem C8_truncation (name : String) (res : CmdResult) :
    (mkStep name res).stdout = res.stdout.take 500
    ∧ (mkStep name res).stderr = res.stderr.take 500
    ∧ (mkStep name res).stdout.length = min 500 res.stdout.length
    ∧ (mkStep name res).stderr.length = min 500 res.stderr.length
    ∧ (res.stdout.length ≤ 500 → (mkStep name res).stdout = res.stdout)
    ∧ (res.stderr.length ≤ 500 → (mkStep name res).stderr = res.stderr)
    ∧ (500 ≤ res.stdout.length → (mkStep name res).stdout.length = 500)
    ∧ (500 ≤ res.stderr.length → (mkStep name res).stderr.length = 500)
    ∧ (∀ env sp deep, ∀ s ∈ (analyze_node_project env sp deep).1.steps,
        s.stdout.length ≤ 500 ∧ s.stderr.length ≤ 500)
    ∧ (∀ env sp deep, ∀ s ∈ (analyze_rust_project env sp deep).1.steps,
        s.stdout.length ≤ 500 ∧ s.stderr.length ≤ 500) := by
  have hso : (mkStep name res).stdout = res.stdout.take 500 := by simp only [mkStep]
  have hse : (mkStep name res).stderr = res.stderr.take 500 := by simp only [mkStep]
  refine ⟨hso, hse, ?_, ?_, ?_, ?_, ?_, ?_, node_steps_bound, rust_steps_bound⟩
  · rw [hso, string_length_take]
  · rw [hse, string_length_take]
  · intro h
    rw [hso]
    exact string_take_of_le _ _ h
  · intro h
    rw [hse]
    exact string_take_of_le _ _ h
  · intro h
    rw [hso, string_length_take, min_eq_left h]
  · intro h
    rw [hse, string_length_take, min_eq_left h]

theorem C8_truncation_witness :
    res_ab.stdout.length ≤ 500 ∧ (mkStep "lint" res_ab).stdout = res_ab.stdout :=
  ⟨by decide, (C8_truncation "lint" res_ab).2.2.2.2.1 (by decide)⟩

/-- C10: a run that stops on a precondition error — missing target path
or no recognized toolchain marker — prints an object carrying exactly an
error key and a status key (status FAIL): it has no steps key and no
failures key at all. -/
theorem C10_error_report_shape (env : Env) (sp : String) (deep : Bool) :
    (env.pathExists sp = false →
      outputKeys (main_run env sp deep).output = ["error", "status"]
      ∧ "steps" ∉ outputKeys (main_run env sp deep).output
      ∧ "failures" ∉ outputKeys (main_run env sp deep).output
      ∧ (main_run env sp deep).output.statusOf = "FAIL")
    ∧ (env.pathExists sp = true →
       env.pathExists (joinPath sp "Cargo.toml") = false →
       env.pathExists (joinPath sp "package.json") = false →
      outputKeys (main_run env sp deep).output = ["error", "status"]
      ∧ "steps" ∉ outputKeys (main_run env sp deep).output
      ∧ "failures" ∉ outputKeys (main_run env sp deep).output
      ∧ (main_run env sp deep).output.statusOf = "FAIL") := by
  constructor
  · intro h
    simp [main_run, h, outputKeys, MainOut.statusOf]
  · intro h1 h2 h3
    simp [main_run, h1, h2, h3, outputKeys, MainOut.statusOf]

theorem C10_error_report_shape_witness :
    env_nopath.pathExists "svc" = false
    ∧ outputKeys (main_run env_nopath "svc" false).output = ["error", "status"] :=
  ⟨by decide, ((C10_error_report_shape env_nopath "svc" false).1 (by decide)).1⟩

/-- C6 counterexample: the claim that an unstartable step command is
signalled as a runner-level failure distinct from a clean non-zero exit,
with a reason identifying the startup problem, is false. Because
run_command uses shell=True, a missing lint executable surfaces only as
exit status 127 from the shell with its diagnostic on stderr
(env_unstartable), and the analyzer records for it the very same generic
failure reason, "Lint check failed", that it records for a lint tool that
starts fine and cleanly exits 127 (env_cleanfail): the failure-reason
lists and statuses of the two runs are identical, so no distinction is
made and the reason does not identify the startup problem. -/
theorem C6_no_runner_distinction_counterexample :
    (analyze_node_project env_unstartable "svc" false).1.failures = ["Lint check failed"]
    ∧ (analyze_node_project env_cleanfail "svc" false).1.failures = ["Lint check failed"]
    ∧ (analyze_node_project env_unstartable "svc" false).1.failures
        = (analyze_node_project env_cleanfail "svc" false).1.failures
    ∧ (analyze_node_project env_unstartable "svc" false).1.status
        = (analyze_node_project env_cleanfail "svc" false).1.status := by
  refine ⟨?_, ?_, ?_, ?_⟩ <;> decide

/-- C6 amended: an unstartable step command (missing executable,
permission denied) surfaces through the shell as a non-zero exit status
with the shell diagnostic on stderr; the analyzer records it as an
ordinary step failure — the step is appended to the report with its exit
code and stderr excerpt, the generic failure reason of the step is appended
and the run is marked FAIL — so it is not silently skipped and does not
crash the orchestrator, but no runner-level signal distinct from a
non-zero exit exists and the recorded reason does not name the startup
problem. -/
theorem C6_unstartable_recorded (env : Env) (sp : String)
    (h : (run_command env "npm run lint" sp).returncode ≠ 0) :
    (analyze_node_project env sp false).1.steps.length = 2
    ∧ mkStep "lint" (run_command env "npm run lint" sp)
        ∈ (analyze_node_project env sp false).1.steps
    ∧ "Lint check failed" ∈ (analyze_node_project env sp false).1.failures
    ∧ (analyze_node_project env sp false).1.status = "FAIL" := by
  simp only [analyze_node_project, initial_report]
  split_ifs <;> simp_all

theorem C6_unstartable_recorded_witness :
    (run_command env_unstartable "npm run lint" "svc").returncode ≠ 0
    ∧ "Lint check failed" ∈ (analyze_node_project env_unstartable "svc" false).1.failures :=
  ⟨by decide, (C6_unstartable_recorded env_unstartable "svc" (by decide)).2.2.1⟩

/-- C9 counterexample: the claim that the regression step runs exactly
when deep mode is requested and a regression_suite.sh exists at the
project root is false: in env_regrAbort deep mode is on and the script
exists, yet the failing compile check aborts the run, so the report holds
only the cargo-check step (the step-name sequence is exactly
["cargo check"]), the script is never invoked, and the only failure is
"Compilation failed" — no regression StepResult named regression_suite
appears. -/
theorem C9_regression_gate_counterexample :
    env_regrAbort.pathExists (joinPath "svc" "regression_suite.sh") = true
    ∧ (analyze_rust_project env_regrAbort "svc" true).1.steps.map StepResult.name
        = ["cargo check"]
    ∧ (analyze_rust_project env_regrAbort "svc" true).2 = ["cargo check"]
    ∧ (analyze_rust_project env_regrAbort "svc" true).1.failures = ["Compilation failed"] := by
  refine ⟨?_, ?_, ?_, ?_⟩ <;> decide

/-- C9 amended: in runs whose compile check succeeds, the regression step
runs exactly when deep mode is requested and a file named
regression_suite.sh exists at the project root (presence is tested with
os.path.exists only — executability is not checked): when it runs and
exits non-zero the failure reason "Regression suite failed" is appended,
when it exits zero no such reason appears, and when deep mode is off or
the script is absent no regression StepResult appears in the report and
the script is never invoked. -/
theorem C9_regression_conditional (env : Env) (sp : String) (deep : Bool)
    (hc : (run_command env "cargo check" sp).returncode = 0) :
    (deep = true → env.pathExists (joinPath sp "regression_suite.sh") = true →
      mkStep "regression_suite" (run_command env "./regression_suite.sh" sp)
        ∈ (analyze_rust_project env sp deep).1.steps
      ∧ "./regression_suite.sh" ∈ (analyze_rust_project env sp deep).2
      ∧ ((run_command env "./regression_suite.sh" sp).returncode ≠ 0 →
          "Regression suite failed" ∈ (analyze_rust_project env sp deep).1.failures)
      ∧ ((run_command env "./regression_suite.sh" sp).returncode = 0 →
          "Regression suite failed" ∉ (analyze_rust_project env sp deep).1.failures))
    ∧ (deep = false →
        (∀ s ∈ (analyze_rust_project env sp deep).1.steps, s.name ≠ "regression_suite")
        ∧ "./regression_suite.sh" ∉ (analyze_rust_project env sp deep).2
        ∧ "Regression suite failed" ∉ (analyze_rust_project env sp deep).1.failures)
    ∧ (env.pathExists (joinPath sp "regression_suite.sh") = false →
        (∀ s ∈ (analyze_rust_project env sp deep).1.steps, s.name ≠ "regression_suite")
        ∧ "./regression_suite.sh" ∉ (analyze_rust_project env sp deep).2
        ∧ "Regression suite failed" ∉ (analyze_rust_project env sp deep).1.failures) := by
  refine ⟨fun hd hr => ?_, fun hd => ?_, fun hr => ?_⟩
  · subst hd
    simp only [analyze_rust_project, initial_report, hr]
    split_ifs <;> simp_all [mkStep]
  · subst hd
    refine ⟨fun s hs => ?_, ?_, ?_⟩
    · simp only [analyze_rust_project, initial_report] at hs
      split_ifs at hs <;>
        simp only [List.nil_append, List.cons_append, List.mem_cons,
          List.not_mem_nil, or_false] at hs <;>
        first
          | exact (by assumption : False).elim
          | (rcases hs with rfl | rfl | rfl | rfl <;> simp [mkStep])
    · simp only [analyze_rust_project, initial_report]
      split_ifs <;> simp_all
    · simp only [analyze_rust_project, initial_report]
      split_ifs <;> simp_all
  · refine ⟨fun s hs => ?_, ?_, ?_⟩
    · simp only [analyze_rust_project, initial_report, hr] at hs
      split_ifs at hs <;>
        simp only [List.nil_append, List.cons_append, List.mem_cons,
          List.not_mem_nil, or_false] at hs <;>
        first
          | exact (by assumption : False).elim
          | (rcases hs with rfl | rfl | rfl | rfl <;> simp [mkStep])
    · cases deep
      · simp [analyze_rust_project, initial_report, hr]
        try (split_ifs <;> simp)
      · simp [analyze_rust_project, initial_report, hr]
        try (split_ifs <;> simp)
    · cases deep
      · simp [analyze_rust_project, initial_report, hr]
        try (split_ifs <;> simp)
      · simp [analyze_rust_project, initial_report, hr]
        try (split_ifs <;> simp)

theorem C9_regression_conditional_witness :
    (run_command env_regrFail "cargo check" "svc").returncode = 0
    ∧ env_regrFail.pathExists (joinPath "svc" "regression_suite.sh") = true
    ∧ (run_command env_regrFail "./regression_suite.sh" "svc").returncode ≠ 0
    ∧ "Regression suite failed" ∈ (analyze_rust_project env_regrFail "svc" true).1.failures :=
  ⟨by decide, by decide, by decide,
    ((C9_regression_conditional env_regrFail "svc" true (by decide)).1 rfl
      (by decide)).2.2.1 (by decide)⟩
